import Mathlib

/-!
Formal model of the ClinicApp realtime session orchestrator
(`src/composables/useNavtalkRealtime.ts`).

The TypeScript source is shallowly embedded: the mutable closure variables of
`useNavtalkRealtime` become fields of `SessionState`; each event handler and
helper becomes a pure function on that state; asynchronous completions
(socket `onopen`/`onerror`/`onclose`, timer firings, microphone grants,
inbound signaling messages) are modelled as discrete events serialized by the
host's single-threaded event loop, exactly as the code relies on.

Audio samples are modelled as rationals: `getChannelData` yields 32-bit
floats, and every arithmetic step the encoder performs on them
(`Math.max`/`Math.min` clamping and multiplication by `0x8000`/`0x7fff`,
which is exact in double precision for any float32 input since the product
mantissa needs at most 39 bits) is exact rational arithmetic, so ℚ is a
faithful carrier for the encoder's inputs.

Resource handles (sockets, peer connection, capture unit, hangup timer) are
identified by freshly allocated numbers.  Besides the variable that the
source stores a handle in, the state tracks the list of handles that have
been created and not yet closed, so that leaking a handle by overwriting a
variable without closing it is observable in the model.
-/

namespace ClinicApp

/-- Roles of transcript entries (`ConversationRole` in the source). -/
inductive Role where
  | user
  | assistant
deriving DecidableEq, Repr

/-- A transcript entry (`ConversationMessage` in the source).  `id` models
`crypto.randomUUID()` as a fresh counter value and `timestamp` models
`Date.now()`. -/
structure ConversationMessage where
  id : Nat
  role : Role
  content : String
  timestamp : Nat
deriving DecidableEq, Repr

/-- The configuration record handed to `useNavtalkRealtime` (`NavtalkConfig`).
`model` exists only in the second protocol dialect of the source. -/
structure NavtalkConfig where
  license : String
  characterName : String
  voice : String
  prompt : String
  baseUrl : Option String
  model : Option String
deriving DecidableEq, Repr

/-- Model of `AUTO_HANGUP_INSTRUCTIONS` from the source. -/
def autoHangupInstructions : String :=
  "When the patient clearly indicates they want to end the call (bye, thanks, want to leave, etc.), respond graciously and then call the `end_conversation` tool once your reply is complete so the session can hang up automatically."

/-- Model of `AUTO_HANGUP_DELAY_MS` from the source. -/
def autoHangupDelayMs : Nat := 2000

/-- The fallback reason used by `handleHangupIntent` when the tool call does
not carry a usable string reason. -/
def hangupFallbackReason : String := "Patient requested to end the consultation."

/-- Name of the single declared tool. -/
def endConversationName : String := "end_conversation"

/-- The declared tool (`END_CONVERSATION_TOOL` in the source), kept to the
fields the session-configuration message exposes. -/
structure ToolDecl where
  type : String
  name : String
  description : String
  requiredParams : List String
deriving DecidableEq, Repr

/-- Model of `END_CONVERSATION_TOOL` from the source. -/
def endConversationTool : ToolDecl :=
  { type := "function"
    name := endConversationName
    description := "Invoke this when the patient wants to hang up or you need to terminate the realtime consultation so the client can stop the call."
    requiredParams := ["reason"] }

/-! ## JavaScript string primitives

The host string builtins the source leans on (`trim`, `toLowerCase`,
`startsWith`-style prefix tests) are modelled structurally on the character
list of the string, over the ASCII range the session strings live in. -/

/-- Whitespace as trimmed by `String.prototype.trim` (ASCII range). -/
def isJsWhitespace (c : Char) : Bool :=
  c = ' ' || c = '\t' || c = '\n' || c = '\r' || c = '\x0b' || c = '\x0c'

/-- Model of `String.prototype.trim`. -/
def jsTrim (s : String) : String :=
  ((s.data.dropWhile isJsWhitespace).reverse.dropWhile isJsWhitespace).reverse.asString

/-- ASCII lower-casing of one character. -/
def jsToLowerChar (c : Char) : Char :=
  if 'A' ≤ c ∧ c ≤ 'Z' then Char.ofNat (c.toNat + 32) else c

/-- ASCII `String.prototype.toLowerCase`. -/
def jsToLower (s : String) : String :=
  (s.data.map jsToLowerChar).asString

/-! ## Float-to-PCM encoder (`floatTo16BitPCM`) -/

/-- The clamping step `Math.max(-1, Math.min(1, x))` of `floatTo16BitPCM`. -/
def clampSample (x : ℚ) : ℚ :=
  max (-1) (min 1 x)

/-- Truncation toward zero of `q * n`, the JavaScript `ToInteger` conversion
`DataView.setInt16` applies to the scaled sample: for the reduced fraction
`q.num / q.den` this is the zero-rounding integer division of `q.num * n` by
`q.den`. -/
def jsTruncMul (q : ℚ) (n : Int) : Int :=
  Int.tdiv (q.num * n) (q.den : Int)

/-- One sample of `floatTo16BitPCM`: clamp to `[-1, 1]`, scale negative
samples by `0x8000` and non-negative ones by `0x7fff`, then truncate as
`DataView.setInt16` does. -/
def sampleToInt16 (x : ℚ) : Int :=
  let s := clampSample x
  if s < 0 then jsTruncMul s 32768 else jsTruncMul s 32767

/-- The 16-bit two's complement store performed by `setInt16`. -/
def toUint16 (n : Int) : Nat :=
  (n % 65536).toNat

/-- Model of `floatTo16BitPCM` from the source: each sample becomes two bytes, low
byte first (the `true` little-endian flag of `setInt16`). -/
def floatTo16BitPCM : List ℚ → List Nat
  | [] => []
  | x :: rest =>
      toUint16 (sampleToInt16 x) % 256 :: toUint16 (sampleToInt16 x) / 256
        :: floatTo16BitPCM rest

/-! ## Base64 encoding (`base64EncodeAudio` / `btoa`) and chunking -/

/-- The base64 alphabet used by `btoa`. -/
def base64Alphabet : List Char :=
  "ABCDEFGHIJKLMNOPQRSTUVWXYZabcdefghijklmnopqrstuvwxyz0123456789+/".data

/-- Character of the base64 alphabet at a 6-bit index. -/
def base64CharAt (n : Nat) : Char :=
  base64Alphabet.getD n 'A'

/-- Standard base64 of a byte list, as computed by
`btoa(base64EncodeAudio(...))` in the source (the `String.fromCharCode`
chunking inside `base64EncodeAudio` only works around an argument-count
limit and does not change the encoded text). -/
def base64Encode : List Nat → List Char
  | [] => []
  | [b1] =>
      [base64CharAt (b1 / 4), base64CharAt (b1 % 4 * 16), '=', '=']
  | [b1, b2] =>
      [base64CharAt (b1 / 4), base64CharAt (b1 % 4 * 16 + b2 / 16),
        base64CharAt (b2 % 16 * 4), '=']
  | b1 :: b2 :: b3 :: rest =>
      base64CharAt (b1 / 4) :: base64CharAt (b1 % 4 * 16 + b2 / 16)
        :: base64CharAt (b2 % 16 * 4 + b3 / 64) :: base64CharAt (b3 % 64)
        :: base64Encode rest

/-- The chunk size used by the `onaudioprocess` handler. -/
def audioChunkSize : Nat := 4096

/-- The chunking loop of the `onaudioprocess` handler:
`for (let i = 0; i < s.length; i += 4096) chunks.push(s.slice(i, i + 4096))`. -/
def chunkAudio (l : List Char) : List (List Char) :=
  if h : l = [] then []
  else l.take audioChunkSize :: chunkAudio (l.drop audioChunkSize)
termination_by l.length
decreasing_by
  simp only [List.length_drop]
  have hpos : 0 < l.length := List.length_pos.mpr h
  simp [audioChunkSize]
  omega

/-! ## JSON values, outbound messages, teardown effects -/

/-- Decoded JSON values, for tool-call argument objects and the structured
payload of `function_call_output` messages (the source serializes these with
`JSON.stringify`; the structured form is kept since serialization is
injective on the shapes the client produces). -/
inductive JsonValue where
  | str (s : String)
  | num (n : Int)
  | boolean (b : Bool)
  | null
  | arr (items : List JsonValue)
  | obj (fields : List (String × JsonValue))

/-- First value bound to a key in a JSON object. -/
def lookupJson (fields : List (String × JsonValue)) (key : String) :
    Option JsonValue :=
  (fields.find? (fun p => p.1 = key)).map Prod.snd

/-- The body of the `session.update` message built by `sendSessionUpdate`,
kept to its literal fields.  `prePaddingMs` models `prefix_padding_ms`. -/
structure SessionConfigMsg where
  instructions : String
  turnDetectionType : String
  threshold : ℚ
  prePaddingMs : Nat
  silenceDurationMs : Nat
  voice : String
  temperature : Nat
  maxResponseOutputTokens : Nat
  modalities : List String
  inputAudioFormat : String
  outputAudioFormat : String
  transcriptionModel : String
  tools : List ToolDecl

/-- Outbound signaling messages sent over the realtime socket (plus the
`create` handshake of the first dialect's result socket).  Media negotiation
payloads are kept opaque. -/
inductive OutMsg where
  | sessionUpdate (cfg : SessionConfigMsg)
  | responseCreate
  | userTextItem (text : String)
  | userImageItem (url : String)
  | functionCallOutput (callId : String) (output : JsonValue)
  | inputAudioAppend (audio : List Char)
  | createResult (targetSessionId : String)
  | answerMsg
  | iceCandidateMsg

/-- Resource-teardown side effects, one per owned handle actually released
(each emission corresponds to a guarded branch of a cleanup routine). -/
inductive TeardownEffect where
  | closeRealtimeSocket (id : Nat)
  | closeResultSocket (id : Nat)
  | closePeerConnection (id : Nat)
  | disconnectAudioProcessor (id : Nat)
  | stopAudioTracks (id : Nat)
  | closeAudioContext (id : Nat)
  | clearHangupTimer (id : Nat)
deriving DecidableEq, Repr

/-- An armed hangup timer: `setTimeout(() => ..., AUTO_HANGUP_DELAY_MS)`;
the closure captures the recorded reason. -/
structure HangupTimer where
  id : Nat
  delayMs : Nat
  reason : String
deriving DecidableEq, Repr

/-- Progress of the suspended async `start()` frame across its two awaits. -/
inductive StartPhase where
  | idle
  | awaitingRealtimeOpen
  | awaitingResultOpen
deriving DecidableEq, Repr

/-- The mutable closure state of `useNavtalkRealtime` (first dialect), plus
bookkeeping lists of created-and-not-yet-closed handles per resource kind.
`captureVar` stands for the audio context/processor/stream unit, which the
source creates and tears down together.  `videoPaused`/`videoSrc` model the
externally owned render sink touched by `cleanupPeerConnection`. -/
structure SessionState where
  isActive : Bool
  isConnecting : Bool
  statusMessage : String
  errorMessage : String
  chatMessages : List ConversationMessage
  streamingResponses : List (String × String)
  functionCallArguments : List (String × String)
  pendingHangupReason : Option String
  hangupTimeout : Option HangupTimer
  socketVar : Option Nat
  resultSocketVar : Option Nat
  peerVar : Option Nat
  captureVar : Option Nat
  micEnabled : Bool
  micPending : Nat
  startPhase : StartPhase
  videoPaused : Bool
  videoSrc : Option Nat
  now : Nat
  nextId : Nat
  liveRealtimeSockets : List Nat
  liveResultSockets : List Nat
  livePeerConnections : List Nat
  liveCaptures : List Nat
  liveTimers : List Nat
deriving DecidableEq, Repr

/-- Truthiness of an optional string field of a JS event (absent, or the
empty string, is falsy). -/
def truthy (o : Option String) : Bool :=
  o.getD "" ≠ ""

/-- Assoc-list update with JS object semantics: an existing key keeps its
position, a new key is appended. -/
def upsert (l : List (String × String)) (k v : String) :
    List (String × String) :=
  match l with
  | [] => [(k, v)]
  | (k1, v1) :: rest =>
      if k1 = k then (k, v) :: rest else (k1, v1) :: upsert rest k v

/-- Assoc-list deletion (`delete obj[k]`). -/
def eraseKey (l : List (String × String)) (k : String) :
    List (String × String) :=
  l.filter (fun p => p.1 ≠ k)

/-- Assoc-list lookup (`obj[k]`, `undefined` when absent). -/
def lookupKey (l : List (String × String)) (k : String) : Option String :=
  (l.find? (fun p => p.1 = k)).map Prod.snd

/-- The initial closure state: everything idle; the persisted chat history
loaded at setup time is a parameter. -/
def initialState (chat : List ConversationMessage) : SessionState :=
  { isActive := false
    isConnecting := false
    statusMessage := "Idle"
    errorMessage := ""
    chatMessages := chat
    streamingResponses := []
    functionCallArguments := []
    pendingHangupReason := none
    hangupTimeout := none
    socketVar := none
    resultSocketVar := none
    peerVar := none
    captureVar := none
    micEnabled := true
    micPending := 0
    startPhase := StartPhase.idle
    videoPaused := false
    videoSrc := none
    now := 0
    nextId := 0
    liveRealtimeSockets := []
    liveResultSockets := []
    livePeerConnections := []
    liveCaptures := []
    liveTimers := [] }

/-! ## Cleanup routines and `stop()` -/

/-- The realtime-socket half of `cleanupSockets`: guarded on a non-null
handle, detaches handlers, closes, nulls the variable. -/
def closeRealtime (s : SessionState) : SessionState × List TeardownEffect :=
  match s.socketVar with
  | some i =>
      ({ s with socketVar := none
                liveRealtimeSockets := s.liveRealtimeSockets.erase i },
        [TeardownEffect.closeRealtimeSocket i])
  | none => (s, [])

/-- The result-socket half of `cleanupSockets`. -/
def closeResult (s : SessionState) : SessionState × List TeardownEffect :=
  match s.resultSocketVar with
  | some i =>
      ({ s with resultSocketVar := none
                liveResultSockets := s.liveResultSockets.erase i },
        [TeardownEffect.closeResultSocket i])
  | none => (s, [])

/-- Model of `cleanupSockets` from the source. -/
def cleanupSockets (s : SessionState) : SessionState × List TeardownEffect :=
  let r1 := closeRealtime s
  let r2 := closeResult r1.1
  (r2.1, r1.2 ++ r2.2)

/-- Model of `cleanupPeerConnection` from the source: close a held peer connection,
then unconditionally pause and detach the external video sink. -/
def cleanupPeerConnection (s : SessionState) :
    SessionState × List TeardownEffect :=
  let r1 : SessionState × List TeardownEffect :=
    match s.peerVar with
    | some i =>
        ({ s with peerVar := none
                  livePeerConnections := s.livePeerConnections.erase i },
          [TeardownEffect.closePeerConnection i])
    | none => (s, [])
  ({ r1.1 with videoPaused := true, videoSrc := none }, r1.2)

/-- Model of `cleanupAudio` from the source: the processor, the capture tracks and
the audio context are created together and are released together; each
release step is guarded on the handle being present. -/
def cleanupAudio (s : SessionState) : SessionState × List TeardownEffect :=
  match s.captureVar with
  | some c =>
      ({ s with captureVar := none, liveCaptures := s.liveCaptures.erase c },
        [TeardownEffect.disconnectAudioProcessor c,
          TeardownEffect.stopAudioTracks c,
          TeardownEffect.closeAudioContext c])
  | none => (s, [])

/-- The guarded `clearTimeout(hangupTimeout)` block of `stop()` (also used
by `scheduleAutomaticHangup` and `finalizeScheduledHangup`). -/
def clearHangupTimeout (s : SessionState) :
    SessionState × List TeardownEffect :=
  match s.hangupTimeout with
  | some t =>
      ({ s with hangupTimeout := none, liveTimers := s.liveTimers.erase t.id },
        [TeardownEffect.clearHangupTimer t.id])
  | none => (s, [])

/-- Model of `stop()` from the source: flip the lifecycle flags to idle, clear the
pending hangup and its timer, drop accumulated tool-call arguments, then
tear down audio, peer connection and sockets in that order. -/
def stop (s : SessionState) : SessionState × List TeardownEffect :=
  let s0 := { s with statusMessage := "Idle"
                     isConnecting := false
                     isActive := false
                     pendingHangupReason := none
                     functionCallArguments := [] }
  let r1 := clearHangupTimeout s0
  let r2 := cleanupAudio r1.1
  let r3 := cleanupPeerConnection r2.1
  let r4 := cleanupSockets r3.1
  (r4.1, r1.2 ++ r2.2 ++ r3.2 ++ r4.2)

/-! ## Auto-hangup machinery -/

/-- Model of `scheduleAutomaticHangup`: record the pending reason and cancel any
already-armed timer; no new timer is armed here. -/
def scheduleAutomaticHangup (reason : String) (s : SessionState) :
    SessionState :=
  (clearHangupTimeout { s with pendingHangupReason := some reason }).1

/-- Model of `finalizeScheduledHangup`: on a truthy pending reason, consume it,
cancel any stale timer and arm a fresh timer with the fixed
`AUTO_HANGUP_DELAY_MS` delay whose closure captures the reason. -/
def finalizeScheduledHangup (s : SessionState) : SessionState :=
  match s.pendingHangupReason with
  | none => s
  | some r =>
      if r = "" then s
      else
        let s1 := (clearHangupTimeout { s with pendingHangupReason := none }).1
        { s1 with
            hangupTimeout :=
              some { id := s1.nextId, delayMs := autoHangupDelayMs, reason := r }
            liveTimers := s1.nextId :: s1.liveTimers
            nextId := s1.nextId + 1 }

/-- Model of `triggerAutomaticHangup`: skipped entirely when the session is already
inactive, otherwise performs `stop()`. -/
def triggerAutomaticHangup (s : SessionState) : SessionState :=
  if s.isActive then (stop s).1 else s

/-- A hangup-timer firing: only a still-armed timer with this identifier can
fire (`clearTimeout` cancels the callback); the callback nulls the handle
and runs `triggerAutomaticHangup`. -/
def fireHangupTimer (id : Nat) (s : SessionState) : SessionState :=
  if (s.hangupTimeout.map HangupTimer.id) = some id then
    triggerAutomaticHangup
      { s with hangupTimeout := none, liveTimers := s.liveTimers.erase id }
  else s

/-! ## Tool-call handling -/

/-- The `{action, status, reason}` object echoed for a handled
`end_conversation` call. -/
def hangupResultJson (reason : String) : JsonValue :=
  JsonValue.obj
    [("action", JsonValue.str "auto_hangup"),
      ("status", JsonValue.str "scheduled"),
      ("reason", JsonValue.str reason)]

/-- The `{status: "ignored", reason}` object echoed for an unhandled tool
name (`payload.name ?? 'unknown'`). -/
def ignoredResultJson (name : Option String) : JsonValue :=
  JsonValue.obj
    [("status", JsonValue.str "ignored"),
      ("reason", JsonValue.str
        ("Client has no handler for " ++ name.getD "unknown" ++ " function."))]

/-- Model of `sendFunctionCallResult`: guarded on an open socket, send the
`function_call_output` conversation item and then `requestAssistantResponse`
(which sends `response.create` behind the same open-socket guard). -/
def sendFunctionCallResult (socketOpen : Bool) (callId : String)
    (result : JsonValue) : List OutMsg :=
  if socketOpen then
    [OutMsg.functionCallOutput callId result, OutMsg.responseCreate]
  else []

/-- The reason computation of `handleHangupIntent`: a string `reason`
argument is trimmed; anything else (absent, non-string) yields the empty
string; an empty result falls back to the fixed reason. -/
def resolveHangupReason (args : List (String × JsonValue)) : String :=
  let rawReason :=
    match lookupJson args "reason" with
    | some (JsonValue.str r) => jsTrim r
    | _ => ""
  if rawReason = "" then hangupFallbackReason else rawReason

/-- Model of `handleHangupIntent`: resolve the reason, record the hangup intent via
`scheduleAutomaticHangup`, and echo the scheduled result when the call
carries a truthy call id. -/
def handleHangupIntent (socketOpen : Bool) (s : SessionState)
    (args : List (String × JsonValue)) (callId : Option String) :
    SessionState × List OutMsg :=
  let reason := resolveHangupReason args
  let s1 := scheduleAutomaticHangup reason s
  if truthy callId then
    (s1, sendFunctionCallResult socketOpen (callId.getD "") (hangupResultJson reason))
  else (s1, [])

/-- The argument-decoding step of `handleFunctionCall`: `JSON.parse` is
applied only to a present, non-blank argument string; a missing or blank
string, or a parse failure, leaves `args` as the empty object.  The host
JSON parser is abstracted as the `parse` parameter. -/
def decodeFunctionArgs (parse : String → Option (List (String × JsonValue)))
    (argumentsStr : Option String) : List (String × JsonValue) :=
  match argumentsStr with
  | some a => if jsTrim a = "" then [] else (parse a).getD []
  | none => []

/-- Model of `handleFunctionCall`: decode the arguments, dispatch `end_conversation`
to `handleHangupIntent`, and answer any other truthy call id with an
"ignored" result. -/
def handleFunctionCall (parse : String → Option (List (String × JsonValue)))
    (socketOpen : Bool) (s : SessionState) (name : Option String)
    (callId : Option String) (argumentsStr : Option String) :
    SessionState × List OutMsg :=
  let args := decodeFunctionArgs parse argumentsStr
  if name = some endConversationName then
    handleHangupIntent socketOpen s args callId
  else if truthy callId then
    (s, sendFunctionCallResult socketOpen (callId.getD "") (ignoredResultJson name))
  else (s, [])

/-! ## Recording and microphone toggling -/

/-- Model of `startRecording`: a no-op when the microphone is disabled or an audio
context already exists; otherwise it requests capture-device access (the
grant lands later as a separate event). -/
def startRecording (s : SessionState) : SessionState :=
  if s.micEnabled = false then s
  else if s.captureVar ≠ none then s
  else { s with micPending := s.micPending + 1 }

/-- The `getUserMedia` success callback: it decrements the outstanding
request count and installs a freshly built capture unit without inspecting
the variable it overwrites. -/
def micGrantedStep (s : SessionState) : SessionState :=
  if s.micPending = 0 then s
  else
    { s with micPending := s.micPending - 1
             captureVar := some s.nextId
             liveCaptures := s.nextId :: s.liveCaptures
             nextId := s.nextId + 1 }

/-- The `getUserMedia` failure callback: surface a microphone error. -/
def micDeniedStep (s : SessionState) : SessionState :=
  if s.micPending = 0 then s
  else
    { s with micPending := s.micPending - 1
             errorMessage := "Unable to access microphone. Please enable browser audio permissions." }

/-- Model of `enableMicrophone`. -/
def enableMicrophone (s : SessionState) : SessionState :=
  if s.micEnabled then s
  else
    let s1 := { s with micEnabled := true }
    if s1.isActive ∧ s1.captureVar = none then startRecording s1 else s1

/-- Model of `disableMicrophone`. -/
def disableMicrophone (s : SessionState) : SessionState :=
  if s.micEnabled = false then s
  else (cleanupAudio { s with micEnabled := false }).1

/-! ## Inbound realtime events and the dispatcher -/

/-- Decoded inbound realtime-socket messages (first dialect discriminants).
Optional string fields are `none` when absent or not a string, matching the
dispatcher's `typeof` checks; `argumentsProvided` is the raw
`event.arguments` string when present. -/
inductive RealtimeEvent where
  | sessionCreated
  | sessionUpdated
  | speechStarted
  | speechStopped
  | inputTranscriptCompleted (transcript : Option String)
  | transcriptDelta (responseId : Option String) (delta : Option String)
  | transcriptDone (responseId : Option String) (transcript : Option String)
  | audioDone
  | functionCallArgsDelta (callId : Option String) (delta : Option String)
  | functionCallArgsDone (name : Option String) (callId : Option String)
      (argumentsProvided : Option String)
  | responseDone
  | gpuFull
  | insufficientBalance
  | errorEvent
  | unhandled (eventType : String)

/-- Model of `appendMessage`: push a transcript entry with a fresh identifier and the
current clock. -/
def appendMessage (role : Role) (content : String) (s : SessionState) :
    SessionState :=
  { s with
      chatMessages := s.chatMessages ++
        [{ id := s.nextId, role := role, content := content, timestamp := s.now }]
      nextId := s.nextId + 1 }

/-- The instructions string of the session-configuration message:
`[prompt?.trim(), AUTO_HANGUP_INSTRUCTIONS].filter(Boolean).join('\n\n')`. -/
def instructionsFor (prompt : String) : String :=
  if jsTrim prompt = "" then autoHangupInstructions
  else jsTrim prompt ++ "\n\n" ++ autoHangupInstructions

/-- The literal session configuration built by `sendSessionUpdate` (both
dialects build the identical object). -/
def sessionConfigOf (cfg : NavtalkConfig) : SessionConfigMsg :=
  { instructions := instructionsFor cfg.prompt
    turnDetectionType := "server_vad"
    threshold := (1 : ℚ) / 2
    prePaddingMs := 300
    silenceDurationMs := 500
    voice := cfg.voice
    temperature := 1
    maxResponseOutputTokens := 4096
    modalities := ["text", "audio"]
    inputAudioFormat := "pcm16"
    outputAudioFormat := "pcm16"
    transcriptionModel := "whisper-1"
    tools := [endConversationTool] }

/-- Model of `handleRealtimeEvent` (first dialect), with the outbound messages each
case produces.  The session-configuration message is built below by
`sendSessionUpdateDialect1`. -/
def handleRealtimeEvent (cfg : NavtalkConfig)
    (parse : String → Option (List (String × JsonValue)))
    (s : SessionState) (e : RealtimeEvent) : SessionState × List OutMsg :=
  let socketOpen := s.socketVar ≠ none
  match e with
  | RealtimeEvent.sessionCreated =>
      (s, if socketOpen then
            [OutMsg.sessionUpdate (sessionConfigOf cfg)]
          else [])
  | RealtimeEvent.sessionUpdated =>
      (startRecording { s with statusMessage := "Ready" },
        if socketOpen then [OutMsg.responseCreate] else [])
  | RealtimeEvent.speechStarted =>
      ({ s with statusMessage := "Patient speaking", streamingResponses := [] }, [])
  | RealtimeEvent.speechStopped =>
      ({ s with statusMessage := "Processing response" }, [])
  | RealtimeEvent.inputTranscriptCompleted t =>
      (if truthy t then appendMessage Role.user (t.getD "") s else s, [])
  | RealtimeEvent.transcriptDelta rid delta =>
      (match rid, delta with
        | some r, some d =>
            if r = "" then s
            else
              { s with
                  streamingResponses :=
                    upsert s.streamingResponses r
                      ((lookupKey s.streamingResponses r).getD "" ++ d)
                  statusMessage := "Responding" }
        | _, _ => s, [])
  | RealtimeEvent.transcriptDone rid t =>
      (match rid with
        | some r =>
            if r = "" then s
            else
              let content := match t with
                | some c => c
                | none => (lookupKey s.streamingResponses r).getD ""
              let s1 := if content = "" then s else appendMessage Role.assistant content s
              { s1 with streamingResponses := eraseKey s1.streamingResponses r
                        statusMessage := "Listening" }
        | none => s, [])
  | RealtimeEvent.audioDone =>
      (finalizeScheduledHangup { s with statusMessage := "Listening" }, [])
  | RealtimeEvent.functionCallArgsDelta cid delta =>
      (match cid, delta with
        | some c, some d =>
            if c = "" then s
            else
              let acc := (lookupKey s.functionCallArguments c).getD "" ++ d
              { s with functionCallArguments := upsert s.functionCallArguments c acc }
        | _, _ => s, [])
  | RealtimeEvent.functionCallArgsDone name cid argumentsProvided =>
      let argsStr :=
        match argumentsProvided with
        | some a => some a
        | none =>
            match cid with
            | some c => if c = "" then none else lookupKey s.functionCallArguments c
            | none => none
      let s1 :=
        match cid with
        | some c =>
            if c = "" then s
            else { s with functionCallArguments := eraseKey s.functionCallArguments c }
        | none => s
      handleFunctionCall parse socketOpen s1 name cid argsStr
  | RealtimeEvent.responseDone =>
      ({ s with statusMessage := "Ready" }, [])
  | RealtimeEvent.gpuFull =>
      ({ s with errorMessage := "GPU resources are currently busy. Please try again later." }, [])
  | RealtimeEvent.insufficientBalance =>
      ({ s with errorMessage := "Account balance is insufficient. Please top up to continue." }, [])
  | RealtimeEvent.errorEvent => (s, [])
  | RealtimeEvent.unhandled _ => (s, [])

/-! ## `start()` and its asynchronous continuations -/

/-- The synchronous prefix of `start()`: the reentrancy guard, the license
check, the state reset, and the `new WebSocket(...)` allocation performed by
`openRealtimeSocket` (whose open/error callbacks arrive as later events). -/
def startStep (license : String) (s : SessionState) : SessionState :=
  if s.isConnecting || s.isActive then s
  else if license = "" then
    { s with errorMessage := "NavTalk license key missing. Update src/navtalk.ts with your key." }
  else
    let s1 := { s with streamingResponses := []
                       errorMessage := ""
                       statusMessage := "Connecting..."
                       isConnecting := true }
    { s1 with socketVar := some s1.nextId
              liveRealtimeSockets := s1.nextId :: s1.liveRealtimeSockets
              nextId := s1.nextId + 1
              startPhase := StartPhase.awaitingRealtimeOpen }

/-- The synchronous body of `openResultSocket`'s executor: when a result
socket already exists the promise resolves at once with no new socket;
otherwise a socket is allocated and its open callback is awaited.  The
returned flag tells whether the promise resolved immediately. -/
def openResultSocketStart (s : SessionState) : SessionState × Bool :=
  match s.resultSocketVar with
  | some _ => (s, true)
  | none =>
      ({ s with resultSocketVar := some s.nextId
                liveResultSockets := s.nextId :: s.liveResultSockets
                nextId := s.nextId + 1
                startPhase := StartPhase.awaitingResultOpen }, false)

/-- The tail of `start()` once both awaits have resolved. -/
def finishStart (s : SessionState) : SessionState :=
  { s with isActive := true
           statusMessage := "Ready"
           isConnecting := false
           startPhase := StartPhase.idle }

/-- The realtime socket's `onopen`: deliverable only for the socket the
variable still holds while `start()` awaits it; resolves the first await,
after which `start()` runs `openResultSocket`. -/
def rtOpenOkStep (id : Nat) (s : SessionState) : SessionState :=
  if s.socketVar = some id ∧ s.startPhase = StartPhase.awaitingRealtimeOpen then
    let s1 := { s with statusMessage := "Connected" }
    let r := openResultSocketStart s1
    if r.2 then finishStart r.1 else r.1
  else s

/-- The shared failure path of `start()`: `notifyError`, `await stop()`, and
the `finally` that clears the connecting flag; the async frame is dead
afterwards. -/
def startFailed (s : SessionState) : SessionState :=
  let s1 := { s with errorMessage := "Unable to start conversation. Please try again." }
  { (stop s1).1 with startPhase := StartPhase.idle }

/-- The realtime socket's `onerror` while `start()` awaits its open. -/
def rtOpenErrStep (id : Nat) (s : SessionState) : SessionState :=
  if s.socketVar = some id ∧ s.startPhase = StartPhase.awaitingRealtimeOpen then
    startFailed s
  else s

/-- The result socket's `onopen`: sends the `create` handshake and resolves
the second await of `start()`. -/
def resOpenOkStep (id : Nat) (s : SessionState) : SessionState :=
  if s.resultSocketVar = some id ∧ s.startPhase = StartPhase.awaitingResultOpen then
    finishStart s
  else s

/-- The result socket's `onerror` while `start()` awaits its open. -/
def resOpenErrStep (id : Nat) (s : SessionState) : SessionState :=
  if s.resultSocketVar = some id ∧ s.startPhase = StartPhase.awaitingResultOpen then
    startFailed s
  else s

/-- The realtime socket's `onclose` (attached until `cleanupSockets`
detaches it): surfaces an error only when the session was active, and always
runs `stop()`. -/
def rtClosedStep (id : Nat) (s : SessionState) : SessionState :=
  if s.socketVar = some id then
    let s1 := if s.isActive then
        { s with errorMessage := "Connection closed unexpectedly." }
      else s
    (stop s1).1
  else s

/-- Model of `handleOffer` on the result socket (resource view): a best-effort ICE
configuration fetch that never fails the negotiation, then discard of any
prior peer connection and creation of the replacement; the answer/ICE
signaling it emits does not touch session resources. -/
def resOfferStep (s : SessionState) : SessionState :=
  if s.resultSocketVar ≠ none then
    let s1 := (cleanupPeerConnection s).1
    { s1 with peerVar := some s1.nextId
              livePeerConnections := s1.nextId :: s1.livePeerConnections
              nextId := s1.nextId + 1 }
  else s

/-! ## The serialized event loop -/

/-- The discrete events the host event loop delivers to the composable. -/
inductive Event where
  | startReq
  | stopReq
  | rtOpenOk (id : Nat)
  | rtOpenErr (id : Nat)
  | rtClosed (id : Nat)
  | resOpenOk (id : Nat)
  | resOpenErr (id : Nat)
  | timerFire (id : Nat)
  | rtMessage (e : RealtimeEvent)
  | resOffer
  | resIceCandidate
  | micGranted
  | micDenied
  | enableMic
  | disableMic

/-- One reaction of the composable to one event, as serialized by the
single-threaded host.  Inbound socket messages are deliverable only while
the corresponding socket variable holds a socket (handlers are detached on
cleanup). -/
def step (license : String)
    (parse : String → Option (List (String × JsonValue)))
    (cfg : NavtalkConfig) (e : Event) (s : SessionState) : SessionState :=
  match e with
  | Event.startReq => startStep license s
  | Event.stopReq => (stop s).1
  | Event.rtOpenOk id => rtOpenOkStep id s
  | Event.rtOpenErr id => rtOpenErrStep id s
  | Event.rtClosed id => rtClosedStep id s
  | Event.resOpenOk id => resOpenOkStep id s
  | Event.resOpenErr id => resOpenErrStep id s
  | Event.timerFire id => fireHangupTimer id s
  | Event.rtMessage re =>
      if s.socketVar ≠ none then (handleRealtimeEvent cfg parse s re).1 else s
  | Event.resOffer => resOfferStep s
  | Event.resIceCandidate => s
  | Event.micGranted => micGrantedStep s
  | Event.micDenied => micDeniedStep s
  | Event.enableMic => enableMicrophone s
  | Event.disableMic => disableMicrophone s

/-- Run a sequence of events from a state. -/
def runEvents (license : String)
    (parse : String → Option (List (String × JsonValue)))
    (cfg : NavtalkConfig) (evs : List Event) (s : SessionState) : SessionState :=
  evs.foldl (fun st e => step license parse cfg e st) s

/-- Whether an event is the completion of a capture-device acquisition; the
claims about resource uniqueness quantify over `start()`/`stop()` sequences
interleaved with timer firings and socket callbacks, which excludes this
completion. -/
def Event.isMicGrant : Event → Bool
  | Event.micGranted => true
  | _ => false

/-! ## Endpoint construction (`buildRealtimeEndpoint`, second dialect) -/

/-- The `replace(/\/+$/, '')` step: drop every trailing `/`. -/
def stripTrailingSlashes (s : String) : String :=
  ((s.data.reverse.dropWhile (fun c => c = '/')).reverse).asString

/-- The case-insensitive scheme test `/^(?:wss?:\/\/|https?:\/\/)/i`. -/
def hasExplicitScheme (s : String) : Bool :=
  "ws://".data.isPrefixOf (jsToLower s).data ||
    "wss://".data.isPrefixOf (jsToLower s).data ||
    "http://".data.isPrefixOf (jsToLower s).data ||
    "https://".data.isPrefixOf (jsToLower s).data

/-- Split a character list at the first occurrence of `://`. -/
def splitSchemeAux (acc : List Char) : List Char → Option (List Char × List Char)
  | ':' :: '/' :: '/' :: rest => some (acc.reverse, rest)
  | c :: rest => splitSchemeAux (c :: acc) rest
  | [] => none

/-- Split `scheme://rest` at the first `://` (as `splitOn "://"` does for the
scheme position). -/
def splitScheme (s : String) : Option (String × String) :=
  match splitSchemeAux [] s.data with
  | some (scheme, rest) => some (scheme.asString, rest.asString)
  | none => none

/-- A constructed endpoint URL, in the structured form the `URL` object
holds before serialization. -/
structure RealtimeEndpoint where
  scheme : String
  host : String
  path : String
  query : List (String × String)
deriving DecidableEq, Repr

/-- The fixed default base address. -/
def defaultBaseUrl : String := "transfer.navtalk.ai"

/-- Model of `buildRealtimeEndpoint` from the source: trim the configured base, strip
trailing slashes, prefix `wss://` when no scheme is given, resolve the fixed
path against it and set the `license`/`name` (and optional `model`) query
parameters.  `new URL` lowercases the scheme and host and throws on an empty
host, whence the `Option`. -/
def buildRealtimeEndpoint (cfg : NavtalkConfig) : Option RealtimeEndpoint :=
  let baseUrl := cfg.baseUrl.getD defaultBaseUrl
  let trimmedBase := stripTrailingSlashes (jsTrim baseUrl)
  let normalizedBase :=
    if hasExplicitScheme trimmedBase then trimmedBase else "wss://" ++ trimmedBase
  match splitScheme normalizedBase with
  | none => none
  | some (scheme, rest) =>
      let host := (rest.data.takeWhile (fun c => !(c == '/' || c == '?' || c == '#'))).asString
      if host = "" then none
      else
        let modelParam :=
          match cfg.model with
          | some m => if jsTrim m = "" then [] else [("model", jsTrim m)]
          | none => []
        some { scheme := jsToLower scheme
               host := jsToLower host
               path := "/wss/v2/realtime-chat"
               query := [("license", cfg.license), ("name", cfg.characterName)] ++ modelParam }

/-! ## Session configuration with history replay (second dialect) -/

/-- The per-entry replay filter of the second dialect's `sendSessionUpdate`:
only user-role entries whose content trims to something non-blank are
replayed, as `input_text` conversation items carrying the trimmed text. -/
def replayUserMessage (m : ConversationMessage) : Option OutMsg :=
  if m.role = Role.user then
    let text := jsTrim m.content
    if text = "" then none else some (OutMsg.userTextItem text)
  else none

/-- Model of `sendSessionUpdate` of the second dialect (invoked by its dispatcher on
`realtime.session.created`): behind the open-socket guard, send the session
configuration and then replay the stored transcript in order. -/
def sendSessionUpdateDialect2 (socketOpen : Bool) (cfg : NavtalkConfig)
    (chat : List ConversationMessage) : List OutMsg :=
  if socketOpen then
    OutMsg.sessionUpdate (sessionConfigOf cfg) :: chat.filterMap replayUserMessage
  else []

/-! ## The `onaudioprocess` handler -/

/-- The messages one `onaudioprocess` callback sends: behind the open-socket
guard, PCM-encode the float frame, base64 it, and send one append message
per 4096-character chunk, in split order. -/
def audioProcessMessages (socketOpen : Bool) (samples : List ℚ) : List OutMsg :=
  if socketOpen then
    (chunkAudio (base64Encode (floatTo16BitPCM samples))).map OutMsg.inputAudioAppend
  else []

/-! ## Resource bookkeeping predicates -/

/-- The live-handle list a resource variable accounts for. -/
def varHandles : Option Nat → List Nat
  | some i => [i]
  | none => []

/-- The live-handle list the timer variable accounts for. -/
def timerHandles : Option HangupTimer → List Nat
  | some t => [t.id]
  | none => []

/-- Erase the handle a variable held, if any. -/
def eraseOptHandle (l : List Nat) : Option Nat → List Nat
  | some i => l.erase i
  | none => l

/-- Erase the timer handle a timer variable held, if any. -/
def eraseOptTimer (l : List Nat) : Option HangupTimer → List Nat
  | some t => l.erase t.id
  | none => l

/-- At most one live handle of each resource kind: at most one realtime
signaling socket, one result socket, one peer media link, one capture unit
and one pending hangup timer. -/
def ResourceBounds (s : SessionState) : Prop :=
  s.liveRealtimeSockets.length ≤ 1 ∧ s.liveResultSockets.length ≤ 1 ∧
    s.livePeerConnections.length ≤ 1 ∧ s.liveCaptures.length ≤ 1 ∧
    s.liveTimers.length ≤ 1

/-- The inductive resource invariant: every live handle is exactly the one
its owning variable holds, and a fully idle controller holds no socket, so
that `start()` never overwrites an unclosed socket. -/
def Inv (s : SessionState) : Prop :=
  s.liveRealtimeSockets = varHandles s.socketVar ∧
    s.liveResultSockets = varHandles s.resultSocketVar ∧
    s.livePeerConnections = varHandles s.peerVar ∧
    s.liveCaptures = varHandles s.captureVar ∧
    s.liveTimers = timerHandles s.hangupTimeout ∧
    (s.isConnecting = false → s.isActive = false →
      s.socketVar = none ∧ s.resultSocketVar = none)

/-- A concrete configuration for witness instantiations. -/
def demoConfig : NavtalkConfig :=
  { license := "lic"
    characterName := "dr"
    voice := "v"
    prompt := "p"
    baseUrl := none
    model := none }

/-- A state with a recorded pending hangup, as after an `end_conversation`
tool call. -/
def pendingDemoState : SessionState :=
  { initialState [] with pendingHangupReason := some "patient said goodbye" }

/-- An active state with an armed hangup timer, as after the audio-done
event. -/
def armedDemoState : SessionState :=
  { initialState [] with
      isActive := true
      hangupTimeout := some { id := 0, delayMs := 2000, reason := "patient said goodbye" }
      liveTimers := [0]
      nextId := 1 }

/-- An already-idle state in which an armed timer is still outstanding. -/
def staleDemoState : SessionState :=
  { initialState [] with
      hangupTimeout := some { id := 0, delayMs := 2000, reason := "patient said goodbye" }
      liveTimers := [0]
      nextId := 1 }

/-! # Theorems -/

/-- Closed form of the state part of `stop`. -/
theorem stop_fields (s : SessionState) :
    (stop s).1 =
      { s with statusMessage := "Idle", isConnecting := false, isActive := false
               pendingHangupReason := none, functionCallArguments := []
               hangupTimeout := none
               liveTimers := eraseOptTimer s.liveTimers s.hangupTimeout
               captureVar := none
               liveCaptures := eraseOptHandle s.liveCaptures s.captureVar
               peerVar := none
               livePeerConnections := eraseOptHandle s.livePeerConnections s.peerVar
               videoPaused := true, videoSrc := none
               socketVar := none
               liveRealtimeSockets := eraseOptHandle s.liveRealtimeSockets s.socketVar
               resultSocketVar := none
               liveResultSockets := eraseOptHandle s.liveResultSockets s.resultSocketVar } := by
  cases h1 : s.hangupTimeout <;> cases h2 : s.captureVar <;> cases h3 : s.peerVar <;>
    cases h4 : s.socketVar <;> cases h5 : s.resultSocketVar <;>
      simp [stop, clearHangupTimeout, cleanupAudio, cleanupPeerConnection, cleanupSockets,
        closeRealtime, closeResult, eraseOptHandle, eraseOptTimer, h1, h2, h3, h4, h5]

/-- C3: `stop()` is idempotent: one call already yields the idle end-state,
and an immediately repeated call returns the very same state and performs no
teardown side effect at all, because every cleanup routine guards on a
non-null resource handle and the first call nulled them all. -/
theorem stop_idempotent (s : SessionState) :
    (stop s).1.isActive = false ∧ (stop s).1.isConnecting = false ∧
      (stop s).1.statusMessage = "Idle" ∧
      stop (stop s).1 = ((stop s).1, []) := by
  refine ⟨by rw [stop_fields], by rw [stop_fields], by rw [stop_fields], ?_⟩
  rw [stop_fields s]
  simp [stop, clearHangupTimeout, cleanupAudio, cleanupPeerConnection, cleanupSockets,
    closeRealtime, closeResult]

/-- Clamping is idempotent. -/
theorem clampSample_clampSample (x : ℚ) : clampSample (clampSample x) = clampSample x := by
  unfold clampSample
  rw [min_eq_right (max_le (by norm_num) (min_le_left _ _))]
  rw [← max_assoc, max_self]

/-- C4: the encoder sends `1.0` to `32767` and `-1.0` to `-32768` (bytes
`FF 7F` and `00 80` little-endian), clamps every out-of-range sample to
`[-1, 1]` before scaling (so anything above `1` encodes like `1` and
anything below `-1` like `-1`), and is a function producing exactly two
bytes per sample, low byte first. -/
theorem floatTo16BitPCM_spec :
    floatTo16BitPCM [1] = [255, 127] ∧
      floatTo16BitPCM [-1] = [0, 128] ∧
      (∀ x : ℚ, sampleToInt16 x = sampleToInt16 (clampSample x)) ∧
      (∀ x : ℚ, 1 < x → sampleToInt16 x = 32767) ∧
      (∀ x : ℚ, x < -1 → sampleToInt16 x = -32768) ∧
      (∀ samples : List ℚ, (floatTo16BitPCM samples).length = 2 * samples.length) ∧
      (∀ samples : List ℚ,
        floatTo16BitPCM samples =
          samples.bind (fun x =>
            [toUint16 (sampleToInt16 x) % 256, toUint16 (sampleToInt16 x) / 256])) := by
  refine ⟨by decide, by decide, ?_, ?_, ?_, ?_, ?_⟩
  · intro x
    unfold sampleToInt16
    rw [clampSample_clampSample]
  · intro x hx
    have h1 : clampSample x = 1 := by
      unfold clampSample
      rw [min_eq_left hx.le]
      exact max_eq_right (by norm_num)
    unfold sampleToInt16
    rw [h1]
    decide
  · intro x hx
    have h1 : clampSample x = -1 := by
      unfold clampSample
      rw [min_eq_right (le_trans hx.le (by norm_num))]
      exact max_eq_left hx.le
    unfold sampleToInt16
    rw [h1]
    decide
  · intro samples
    induction samples with
    | nil => rfl
    | cons x rest ih =>
        simp [floatTo16BitPCM, ih]
        ring
  · intro samples
    induction samples with
    | nil => rfl
    | cons x rest ih =>
        simp [floatTo16BitPCM, ih]

/-- Witness for the hypothesis-bearing parts of `floatTo16BitPCM_spec`
at the concrete out-of-range samples `2` and `-2`. -/
theorem floatTo16BitPCM_spec_witness :
    ((1 : ℚ) < 2 ∧ sampleToInt16 2 = 32767) ∧
      ((-2 : ℚ) < -1 ∧ sampleToInt16 (-2) = -32768) :=
  ⟨⟨by decide, floatTo16BitPCM_spec.2.2.2.1 2 (by decide)⟩,
    ⟨by decide, floatTo16BitPCM_spec.2.2.2.2.1 (-2) (by decide)⟩⟩

/-- Concatenating the chunks restores the payload. -/
theorem chunkAudio_join (l : List Char) : (chunkAudio l).join = l := by
  induction l using chunkAudio.induct with
  | case1 => simp [chunkAudio]
  | case2 l h ih =>
      rw [chunkAudio]
      simp [h, ih]

/-- Every chunk is at most `audioChunkSize` characters. -/
theorem chunkAudio_length_le (l : List Char) :
    ∀ c ∈ chunkAudio l, c.length ≤ audioChunkSize := by
  induction l using chunkAudio.induct with
  | case1 => simp [chunkAudio]
  | case2 l h ih =>
      rw [chunkAudio]
      simp only [h, dite_false]
      intro c hc
      rcases List.mem_cons.mp hc with hc | hc
      · subst hc
        simpa using List.length_take_le audioChunkSize l
      · exact ih c hc

/-- A nonempty payload yields at least one chunk. -/
theorem chunkAudio_ne_nil (l : List Char) (h : l ≠ []) : chunkAudio l ≠ [] := by
  rw [chunkAudio]
  simp [h]

/-- C5: one `onaudioprocess` callback emits exactly one append message per
chunk of the base64 payload, in split order; the chunks are each at most
4096 characters, concatenate back to the payload, and a payload longer than
4096 characters yields at least two messages. -/
theorem audioProcess_chunking :
    (∀ samples : List ℚ,
        audioProcessMessages true samples =
          (chunkAudio (base64Encode (floatTo16BitPCM samples))).map OutMsg.inputAudioAppend) ∧
      (∀ payload : List Char, (chunkAudio payload).join = payload) ∧
      (∀ payload : List Char, ∀ c ∈ chunkAudio payload, c.length ≤ 4096) ∧
      (∀ payload : List Char, 4096 < payload.length →
        2 ≤ ((chunkAudio payload).map OutMsg.inputAudioAppend).length) := by
  refine ⟨fun samples => by simp [audioProcessMessages], chunkAudio_join,
    chunkAudio_length_le, ?_⟩
  intro payload hlen
  have hne : payload ≠ [] := by
    intro hcontra
    rw [hcontra] at hlen
    simp at hlen
  rw [chunkAudio]
  simp only [hne, dite_false, List.map_cons, List.length_cons]
  have hdrop : payload.drop audioChunkSize ≠ [] := by
    intro hcontra
    have := congrArg List.length hcontra
    simp [audioChunkSize] at this
    omega
  have h2 := chunkAudio_ne_nil _ hdrop
  have h3 : 1 ≤ ((chunkAudio (payload.drop audioChunkSize)).map OutMsg.inputAudioAppend).length := by
    rcases List.exists_cons_of_ne_nil h2 with ⟨a, t, ha⟩
    simp [ha]
  omega

/-- Witness for the hypothesis-bearing parts of `audioProcess_chunking`: a
single-character payload for the chunk-size bound and a 4097-character
payload for the multi-message case. -/
theorem chunkAudio_single : chunkAudio ['a'] = [['a']] := by
  rw [chunkAudio]
  rw [List.take_of_length_le (by simp [audioChunkSize]),
    List.drop_eq_nil_of_le (by simp [audioChunkSize])]
  rw [chunkAudio]
  simp

/-- Witness for the hypothesis-bearing parts of `audioProcess_chunking`: a
single-character payload for the chunk-size bound and a 4097-character
payload for the multi-message case. -/
theorem audioProcess_chunking_witness :
    (['a'] ∈ chunkAudio ['a'] ∧ (['a'] : List Char).length ≤ 4096) ∧
      (4096 < (List.replicate 4097 'a').length ∧
        2 ≤ ((chunkAudio (List.replicate 4097 'a')).map OutMsg.inputAudioAppend).length) :=
  ⟨⟨by rw [chunkAudio_single]; simp,
      audioProcess_chunking.2.2.1 ['a'] ['a'] (by rw [chunkAudio_single]; simp)⟩,
    ⟨by rw [List.length_replicate]; omega,
      audioProcess_chunking.2.2.2 (List.replicate 4097 'a')
        (by rw [List.length_replicate]; omega)⟩⟩

/-- C2: the auto-hangup is two-phase.  A handled `end_conversation` tool
call only records the pending reason and leaves no timer armed; the
audio-done event runs `finalizeScheduledHangup`, which consumes a pending
reason and arms a timer with the fixed 2000 ms delay; a firing of that timer
performs `stop()` when the session is still active; `stop()` clears both the
pending reason and the timer, after which no timer firing has any effect;
and a timer that fires once the session is already inactive only consumes
itself without any teardown. -/
theorem autoHangup_two_phase :
    (∀ parse socketOpen (s : SessionState) cid aStr,
        (handleFunctionCall parse socketOpen s (some endConversationName) cid aStr).1.pendingHangupReason
            = some (resolveHangupReason (decodeFunctionArgs parse aStr)) ∧
          (handleFunctionCall parse socketOpen s (some endConversationName) cid aStr).1.hangupTimeout
            = none) ∧
      (∀ cfg parse (s : SessionState),
        (handleRealtimeEvent cfg parse s RealtimeEvent.audioDone).1 =
          finalizeScheduledHangup { s with statusMessage := "Listening" }) ∧
      (∀ (s : SessionState) (r : String), s.pendingHangupReason = some r → r ≠ "" →
        (finalizeScheduledHangup s).pendingHangupReason = none ∧
          (finalizeScheduledHangup s).hangupTimeout =
            some { id := s.nextId, delayMs := 2000, reason := r }) ∧
      (∀ (s : SessionState) (t : HangupTimer),
        s.hangupTimeout = some t → s.isActive = true →
        fireHangupTimer t.id s =
          (stop { s with hangupTimeout := none, liveTimers := s.liveTimers.erase t.id }).1) ∧
      (∀ s : SessionState,
        (stop s).1.pendingHangupReason = none ∧ (stop s).1.hangupTimeout = none ∧
          ∀ id, fireHangupTimer id (stop s).1 = (stop s).1) ∧
      (∀ (s : SessionState) (t : HangupTimer),
        s.hangupTimeout = some t → s.isActive = false →
        fireHangupTimer t.id s =
          { s with hangupTimeout := none, liveTimers := s.liveTimers.erase t.id }) := by
  refine ⟨?_, fun cfg parse s => rfl, ?_, ?_, ?_, ?_⟩
  · intro parse socketOpen s cid aStr
    unfold handleFunctionCall handleHangupIntent scheduleAutomaticHangup clearHangupTimeout
    cases h : s.hangupTimeout <;> cases htr : truthy cid <;> simp [h, htr]
  · intro s r hr hne
    unfold finalizeScheduledHangup
    rw [hr]
    simp only [hne, if_false]
    unfold clearHangupTimeout
    cases h : s.hangupTimeout <;>
      simp [h, autoHangupDelayMs]
  · intro s t ht ha
    unfold fireHangupTimer triggerAutomaticHangup
    rw [ht]
    simp [ha]
  · intro s
    refine ⟨by rw [stop_fields], by rw [stop_fields], ?_⟩
    intro id
    unfold fireHangupTimer
    rw [stop_fields]
    simp
  · intro s t ht ha
    unfold fireHangupTimer triggerAutomaticHangup
    rw [ht]
    simp [ha]

/-- Witness for `autoHangup_two_phase` at concrete states: a fresh session
receiving an `end_conversation` call, a state with the recorded reason
receiving audio-done, an active armed state whose timer fires, and an
already-idle armed state whose timer fires. -/
theorem autoHangup_two_phase_witness :
    ((handleFunctionCall (fun _ => none) true (initialState [])
          (some endConversationName) (some "call-1") none).1.pendingHangupReason
        = some (resolveHangupReason (decodeFunctionArgs (fun _ => none) none)) ∧
      (handleFunctionCall (fun _ => none) true (initialState [])
          (some endConversationName) (some "call-1") none).1.hangupTimeout = none) ∧
      ((finalizeScheduledHangup pendingDemoState).pendingHangupReason = none ∧
        (finalizeScheduledHangup pendingDemoState).hangupTimeout =
          some { id := pendingDemoState.nextId, delayMs := 2000,
                 reason := "patient said goodbye" }) ∧
      (fireHangupTimer 0 armedDemoState =
        (stop { armedDemoState with
                  hangupTimeout := none
                  liveTimers := armedDemoState.liveTimers.erase 0 }).1) ∧
      (fireHangupTimer 0 staleDemoState =
        { staleDemoState with
            hangupTimeout := none
            liveTimers := staleDemoState.liveTimers.erase 0 }) := by
  refine ⟨autoHangup_two_phase.1 (fun _ => none) true (initialState []) (some "call-1") none,
    autoHangup_two_phase.2.2.1 pendingDemoState "patient said goodbye" (by decide) (by decide),
    ?_, ?_⟩
  · exact autoHangup_two_phase.2.2.2.1 armedDemoState
      { id := 0, delayMs := 2000, reason := "patient said goodbye" } (by decide) (by decide)
  · exact autoHangup_two_phase.2.2.2.2.2 staleDemoState
      { id := 0, delayMs := 2000, reason := "patient said goodbye" } (by decide) (by decide)

/-- Updating a key makes it the bound value. -/
theorem lookupKey_upsert (l : List (String × String)) (k v : String) :
    lookupKey (upsert l k v) k = some v := by
  induction l with
  | nil => simp [upsert, lookupKey]
  | cons p rest ih =>
      obtain ⟨k1, v1⟩ := p
      by_cases h : k1 = k
      · simp [upsert, h, lookupKey]
      · simp only [upsert, h, if_false]
        rw [lookupKey] at ih ⊢
        simpa [List.find?, h] using ih

/-- Deleting a key removes its binding. -/
theorem lookupKey_eraseKey (l : List (String × String)) (k : String) :
    lookupKey (eraseKey l k) k = none := by
  induction l with
  | nil => simp [eraseKey, lookupKey]
  | cons p rest ih =>
      obtain ⟨k1, v1⟩ := p
      by_cases h : k1 = k
      · simpa [eraseKey, h, lookupKey] using ih
      · rw [lookupKey] at ih ⊢
        simpa [eraseKey, List.find?, h] using ih

/-- The transcript-delta case of the dispatcher, in closed form. -/
theorem transcriptDelta_step (cfg : NavtalkConfig)
    (parse : String → Option (List (String × JsonValue)))
    (s : SessionState) (r d : String) (hr : r ≠ "") :
    (handleRealtimeEvent cfg parse s (RealtimeEvent.transcriptDelta (some r) (some d))).1 =
      { s with
          streamingResponses :=
            upsert s.streamingResponses r ((lookupKey s.streamingResponses r).getD "" ++ d)
          statusMessage := "Responding" } := by
  simp [handleRealtimeEvent, hr]

/-- The transcript-done case of the dispatcher with an absent transcript
payload, in closed form. -/
theorem transcriptDone_none_step (cfg : NavtalkConfig)
    (parse : String → Option (List (String × JsonValue)))
    (s : SessionState) (r : String) (hr : r ≠ "") :
    (handleRealtimeEvent cfg parse s (RealtimeEvent.transcriptDone (some r) none)).1 =
      (if (lookupKey s.streamingResponses r).getD "" = "" then
        { s with streamingResponses := eraseKey s.streamingResponses r
                 statusMessage := "Listening" }
      else
        { appendMessage Role.assistant ((lookupKey s.streamingResponses r).getD "") s with
            streamingResponses :=
              eraseKey (appendMessage Role.assistant ((lookupKey s.streamingResponses r).getD "") s).streamingResponses r
            statusMessage := "Listening" }) := by
  by_cases hc : (lookupKey s.streamingResponses r).getD "" = "" <;>
    simp [handleRealtimeEvent, hr, hc]

/-- C6: streaming a transcript as deltas `"Hel"`, `"lo"` for response `r1`
and finishing with an undefined transcript payload appends exactly one
assistant entry reading `"Hello"` and leaves no accumulator for `r1`;
in general, transcript-done (with no transcript payload) appends an entry
exactly when the accumulated text is non-empty, and always deletes the
accumulator of that response id. -/
theorem transcript_accumulation :
    (∀ cfg parse (s : SessionState),
        lookupKey s.streamingResponses "r1" = none →
        (handleRealtimeEvent cfg parse
              (handleRealtimeEvent cfg parse
                  (handleRealtimeEvent cfg parse s
                      (RealtimeEvent.transcriptDelta (some "r1") (some "Hel"))).1
                  (RealtimeEvent.transcriptDelta (some "r1") (some "lo"))).1
              (RealtimeEvent.transcriptDone (some "r1") none)).1.chatMessages =
            s.chatMessages ++
              [{ id := s.nextId, role := Role.assistant, content := "Hello",
                 timestamp := s.now }] ∧
          lookupKey
            (handleRealtimeEvent cfg parse
                (handleRealtimeEvent cfg parse
                    (handleRealtimeEvent cfg parse s
                        (RealtimeEvent.transcriptDelta (some "r1") (some "Hel"))).1
                    (RealtimeEvent.transcriptDelta (some "r1") (some "lo"))).1
                (RealtimeEvent.transcriptDone (some "r1") none)).1.streamingResponses
            "r1" = none) ∧
      (∀ cfg parse (s : SessionState) (rid : String), rid ≠ "" →
        lookupKey
            (handleRealtimeEvent cfg parse s
                (RealtimeEvent.transcriptDone (some rid) none)).1.streamingResponses
            rid = none ∧
          (handleRealtimeEvent cfg parse s
              (RealtimeEvent.transcriptDone (some rid) none)).1.chatMessages =
            (if (lookupKey s.streamingResponses rid).getD "" = "" then s.chatMessages
             else s.chatMessages ++
               [{ id := s.nextId, role := Role.assistant,
                  content := (lookupKey s.streamingResponses rid).getD "",
                  timestamp := s.now }])) := by
  constructor
  · intro cfg parse s h
    rw [transcriptDelta_step cfg parse s "r1" "Hel" (by decide)]
    rw [transcriptDelta_step cfg parse _ "r1" "lo" (by decide)]
    simp only [h, lookupKey_upsert, Option.getD_some, Option.getD_none]
    rw [transcriptDone_none_step cfg parse _ "r1" (by decide)]
    simp only [lookupKey_upsert, Option.getD_some]
    have hHello : (("" ++ "Hel" : String) ++ "lo") = "Hello" := by decide
    rw [hHello]
    simp [appendMessage, lookupKey_eraseKey]
  · intro cfg parse s rid hr
    rw [transcriptDone_none_step cfg parse s rid hr]
    by_cases hc : (lookupKey s.streamingResponses rid).getD "" = "" <;>
      simp [hc, appendMessage, lookupKey_eraseKey]

/-- Witness for `transcript_accumulation` at the fresh initial state. -/
theorem transcript_accumulation_witness :
    (lookupKey (initialState []).streamingResponses "r1" = none ∧
      (handleRealtimeEvent demoConfig (fun _ => none)
            (handleRealtimeEvent demoConfig (fun _ => none)
                (handleRealtimeEvent demoConfig (fun _ => none)
                    (initialState [])
                    (RealtimeEvent.transcriptDelta (some "r1") (some "Hel"))).1
                (RealtimeEvent.transcriptDelta (some "r1") (some "lo"))).1
            (RealtimeEvent.transcriptDone (some "r1") none)).1.chatMessages =
          (initialState []).chatMessages ++
            [{ id := (initialState []).nextId, role := Role.assistant,
               content := "Hello", timestamp := (initialState []).now }]) ∧
      ("r1" : String) ≠ "" := by
  refine ⟨⟨by decide, ?_⟩, by decide⟩
  exact (transcript_accumulation.1 demoConfig (fun _ => none) (initialState [])
    (by decide)).1

/-- Prefixing `wss://` splits back off as the scheme. -/
theorem splitScheme_wss (t : String) : splitScheme ("wss://" ++ t) = some ("wss", t) := by
  unfold splitScheme
  have hdata : ("wss://" ++ t).data = 'w' :: 's' :: 's' :: ':' :: '/' :: '/' :: t.data := by
    rw [String.data_append]
    rfl
  rw [hdata]
  rfl

/-- C7 counterexample: a base address given with an explicit insecure scheme
is kept as-is, so the constructed endpoint does not use the secure scheme. -/
theorem buildRealtimeEndpoint_insecure_scheme_kept :
    (buildRealtimeEndpoint { demoConfig with baseUrl := some "ws://example.com" }).map
        RealtimeEndpoint.scheme = some "ws" ∧ ("ws" : String) ≠ "wss" := by
  exact ⟨by decide, by decide⟩

/-- C7 (amended): the endpoint builder tolerates a base address with or
without a scheme; it prefixes the secure scheme only when no
`ws`/`wss`/`http`/`https` scheme is present (a scheme-less base therefore
yields a `wss` endpoint, while an explicitly given scheme is preserved
rather than upgraded), strips trailing path separators from the base, and
every endpoint it constructs carries the license and agent-identity query
parameters. -/
theorem buildRealtimeEndpoint_spec :
    (∀ (cfg : NavtalkConfig) (b : String), cfg.baseUrl = some b →
        hasExplicitScheme (stripTrailingSlashes (jsTrim b)) = false →
        buildRealtimeEndpoint cfg = none ∨
          (buildRealtimeEndpoint cfg).map RealtimeEndpoint.scheme = some "wss") ∧
      (∀ (cfg : NavtalkConfig) (ep : RealtimeEndpoint),
        buildRealtimeEndpoint cfg = some ep →
        ("license", cfg.license) ∈ ep.query ∧
          ("name", cfg.characterName) ∈ ep.query ∧
          ep.path = "/wss/v2/realtime-chat") ∧
      (∀ s : String, stripTrailingSlashes (s ++ "/") = stripTrailingSlashes s) := by
  refine ⟨?_, ?_, ?_⟩
  · intro cfg b hb hsch
    unfold buildRealtimeEndpoint
    rw [hb]
    simp only [Option.getD_some]
    rw [if_neg (by rw [hsch]; exact Bool.false_ne_true)]
    rw [splitScheme_wss]
    dsimp only
    by_cases hhost : (((stripTrailingSlashes (jsTrim b)).data.takeWhile
        (fun c => !(c == '/' || c == '?' || c == '#'))).asString) = ""
    · left
      rw [if_pos hhost]
    · right
      rw [if_neg hhost]
      have hlow : jsToLower "wss" = "wss" := by decide
      simp [hlow]
  · intro cfg ep hep
    unfold buildRealtimeEndpoint at hep
    dsimp only at hep
    repeat split at hep
    all_goals try exact Option.noConfusion hep
    all_goals
      rename_i x scheme rest heq
      by_cases hhost :
        ((rest.data.takeWhile (fun c => !(c == '/' || c == '?' || c == '#'))).asString) = ""
      · rw [if_pos hhost] at hep
        exact Option.noConfusion hep
      · rw [if_neg hhost] at hep
        rw [Option.some.injEq] at hep
        subst hep
        exact ⟨List.mem_append_left _ (List.mem_cons_self _ _),
          List.mem_append_left _ (List.mem_cons_of_mem _ (List.mem_cons_self _ _)), rfl⟩
  · intro s
    unfold stripTrailingSlashes
    rw [String.data_append]
    simp [List.dropWhile]

/-- Witness for `buildRealtimeEndpoint_spec`: the default scheme-less base
address yields a secure endpoint carrying both parameters. -/
theorem buildRealtimeEndpoint_spec_witness :
    ({ demoConfig with baseUrl := some "transfer.navtalk.ai/" } : NavtalkConfig).baseUrl
        = some "transfer.navtalk.ai/" ∧
      hasExplicitScheme (stripTrailingSlashes (jsTrim "transfer.navtalk.ai/")) = false ∧
      (buildRealtimeEndpoint { demoConfig with baseUrl := some "transfer.navtalk.ai/" } = none ∨
        (buildRealtimeEndpoint { demoConfig with baseUrl := some "transfer.navtalk.ai/" }).map
          RealtimeEndpoint.scheme = some "wss") ∧
      (buildRealtimeEndpoint { demoConfig with baseUrl := some "transfer.navtalk.ai/" } =
          some { scheme := "wss", host := "transfer.navtalk.ai",
                 path := "/wss/v2/realtime-chat",
                 query := [("license", "lic"), ("name", "dr")] } →
        ("license", "lic") ∈
            ([("license", "lic"), ("name", "dr")] : List (String × String)) ∧
          ("name", "dr") ∈ ([("license", "lic"), ("name", "dr")] : List (String × String)) ∧
          ("/wss/v2/realtime-chat" : String) = "/wss/v2/realtime-chat") := by
  refine ⟨rfl, by decide, ?_, ?_⟩
  · exact buildRealtimeEndpoint_spec.1
      { demoConfig with baseUrl := some "transfer.navtalk.ai/" }
      "transfer.navtalk.ai/" rfl (by decide)
  · intro h
    exact buildRealtimeEndpoint_spec.2.1
      { demoConfig with baseUrl := some "transfer.navtalk.ai/" } _ h

/-- The replay filter, as a filter of the user-role non-blank entries
mapped in stored order. -/
theorem filterMap_replayUserMessage (chat : List ConversationMessage) :
    chat.filterMap replayUserMessage =
      (chat.filter (fun m => m.role == Role.user && !(jsTrim m.content == ""))).map
        (fun m => OutMsg.userTextItem (jsTrim m.content)) := by
  induction chat with
  | nil => rfl
  | cons m rest ih =>
      by_cases h1 : m.role = Role.user
      · by_cases h2 : jsTrim m.content = ""
        · simp [replayUserMessage, h1, h2, List.filterMap_cons, List.filter_cons, ih]
        · simp [replayUserMessage, h1, h2, List.filterMap_cons, List.filter_cons, ih]
      · simp [replayUserMessage, h1, List.filterMap_cons, List.filter_cons, ih]

/-- C8: on session-created the dispatcher sends the session-configuration
message — whose instructions are the trimmed user prompt concatenated with
the fixed auto-termination directive, with the voice, turn-detection,
audio-format and tool declarations — and then replays exactly the stored
user-role entries with non-blank content, in stored order, as
`conversation.item.create` messages. -/
theorem sessionCreated_config_and_replay :
    (∀ (cfg : NavtalkConfig) (chat : List ConversationMessage),
        sendSessionUpdateDialect2 true cfg chat =
          OutMsg.sessionUpdate (sessionConfigOf cfg) ::
            (chat.filter (fun m => m.role == Role.user && !(jsTrim m.content == ""))).map
              (fun m => OutMsg.userTextItem (jsTrim m.content))) ∧
      (∀ cfg : NavtalkConfig, jsTrim cfg.prompt ≠ "" →
        (sessionConfigOf cfg).instructions =
          jsTrim cfg.prompt ++ "\n\n" ++ autoHangupInstructions) ∧
      (∀ cfg : NavtalkConfig,
        (sessionConfigOf cfg).voice = cfg.voice ∧
          (sessionConfigOf cfg).turnDetectionType = "server_vad" ∧
          (sessionConfigOf cfg).inputAudioFormat = "pcm16" ∧
          (sessionConfigOf cfg).outputAudioFormat = "pcm16" ∧
          (sessionConfigOf cfg).tools = [endConversationTool]) := by
  refine ⟨?_, ?_, fun cfg => ⟨rfl, rfl, rfl, rfl, rfl⟩⟩
  · intro cfg chat
    simp [sendSessionUpdateDialect2, filterMap_replayUserMessage]
  · intro cfg h
    simp [sessionConfigOf, instructionsFor, h]

/-- Witness for the hypothesis-bearing part of
`sessionCreated_config_and_replay` at the demo configuration. -/
theorem sessionCreated_config_and_replay_witness :
    jsTrim demoConfig.prompt ≠ "" ∧
      (sessionConfigOf demoConfig).instructions =
        jsTrim demoConfig.prompt ++ "\n\n" ++ autoHangupInstructions :=
  ⟨by decide, sessionCreated_config_and_replay.2.1 demoConfig (by decide)⟩

/-- C9: an `end_conversation` tool call carrying a call id is answered with
exactly one `function_call_output` whose structured output is
`{action: "auto_hangup", status: "scheduled", reason}` (followed by the
`response.create` that `sendFunctionCallResult` always issues), while a call
to any other tool name with a call id is answered with a
`{status: "ignored"}` result. -/
theorem functionCall_result_messages :
    (∀ parse (s : SessionState) (cid : String) aStr, cid ≠ "" →
        (handleFunctionCall parse true s (some endConversationName) (some cid) aStr).2 =
          [OutMsg.functionCallOutput cid
              (hangupResultJson (resolveHangupReason (decodeFunctionArgs parse aStr))),
            OutMsg.responseCreate]) ∧
      (∀ r, hangupResultJson r =
        JsonValue.obj [("action", JsonValue.str "auto_hangup"),
          ("status", JsonValue.str "scheduled"), ("reason", JsonValue.str r)]) ∧
      (∀ parse (s : SessionState) (n cid : String) aStr,
        n ≠ endConversationName → cid ≠ "" →
        (handleFunctionCall parse true s (some n) (some cid) aStr).2 =
          [OutMsg.functionCallOutput cid (ignoredResultJson (some n)),
            OutMsg.responseCreate]) ∧
      (∀ n, ignoredResultJson (some n) =
        JsonValue.obj [("status", JsonValue.str "ignored"),
          ("reason",
            JsonValue.str ("Client has no handler for " ++ n ++ " function."))]) := by
  refine ⟨?_, fun r => rfl, ?_, fun n => rfl⟩
  · intro parse s cid aStr hc
    unfold handleFunctionCall handleHangupIntent sendFunctionCallResult
    simp [truthy, hc]
  · intro parse s n cid aStr hn hc
    unfold handleFunctionCall sendFunctionCallResult
    simp [truthy, hn, hc]

/-- Witness for `functionCall_result_messages` at a concrete call id and an
unknown tool name. -/
theorem functionCall_result_messages_witness :
    (("call-1" : String) ≠ "" ∧
      (handleFunctionCall (fun _ => none) true (initialState [])
          (some endConversationName) (some "call-1") none).2 =
        [OutMsg.functionCallOutput "call-1"
            (hangupResultJson (resolveHangupReason
              (decodeFunctionArgs (fun _ => none) none))),
          OutMsg.responseCreate]) ∧
      (("open_door" : String) ≠ endConversationName ∧
        (handleFunctionCall (fun _ => none) true (initialState [])
            (some "open_door") (some "call-2") none).2 =
          [OutMsg.functionCallOutput "call-2" (ignoredResultJson (some "open_door")),
            OutMsg.responseCreate]) :=
  ⟨⟨by decide, functionCall_result_messages.1 (fun _ => none) (initialState [])
      "call-1" none (by decide)⟩,
    ⟨by decide, functionCall_result_messages.2.2.1 (fun _ => none) (initialState [])
      "open_door" "call-2" none (by decide) (by decide)⟩⟩

/-- C10: a hangup intent is recorded for every handled `end_conversation`
call, and the recorded and echoed reason is the resolved one: the fixed
fallback string when the reason argument is missing, not a string, trims to
nothing, or the arguments do not decode at all; the trimmed reason when a
non-blank string reason is present. -/
theorem hangup_reason_resolution :
    (∀ parse (s : SessionState) cid aStr,
        (handleFunctionCall parse true s (some endConversationName) cid aStr).1.pendingHangupReason
          = some (resolveHangupReason (decodeFunctionArgs parse aStr))) ∧
      (∀ parse, decodeFunctionArgs parse none = []) ∧
      (∀ parse a, parse a = none → decodeFunctionArgs parse (some a) = []) ∧
      (resolveHangupReason [] = hangupFallbackReason) ∧
      (∀ args, lookupJson args "reason" = none →
        resolveHangupReason args = hangupFallbackReason) ∧
      (∀ args v, lookupJson args "reason" = some v → (∀ t, v ≠ JsonValue.str t) →
        resolveHangupReason args = hangupFallbackReason) ∧
      (∀ args w, lookupJson args "reason" = some (JsonValue.str w) → jsTrim w = "" →
        resolveHangupReason args = hangupFallbackReason) ∧
      (∀ args r, lookupJson args "reason" = some (JsonValue.str r) → jsTrim r ≠ "" →
        resolveHangupReason args = jsTrim r) ∧
      (∀ parse (s : SessionState) (cid : String) aStr, cid ≠ "" →
        (handleFunctionCall parse true s (some endConversationName) (some cid) aStr).2 =
          [OutMsg.functionCallOutput cid
              (hangupResultJson (resolveHangupReason (decodeFunctionArgs parse aStr))),
            OutMsg.responseCreate]) := by
  refine ⟨?_, fun parse => rfl, ?_, by decide, ?_, ?_, ?_, ?_, ?_⟩
  · intro parse s cid aStr
    unfold handleFunctionCall handleHangupIntent scheduleAutomaticHangup clearHangupTimeout
    cases h : s.hangupTimeout <;> cases htr : truthy cid <;> simp [h, htr]
  · intro parse a hp
    unfold decodeFunctionArgs
    dsimp only
    by_cases ht : jsTrim a = ""
    · rw [if_pos ht]
    · rw [if_neg ht, hp]
      rfl
  · intro args h
    unfold resolveHangupReason
    rw [h]
    simp
  · intro args v h hv
    unfold resolveHangupReason
    rw [h]
    cases v with
    | str t => exact absurd rfl (hv t)
    | num n => simp
    | boolean b => simp
    | null => simp
    | arr items => simp
    | obj fields => simp
  · intro args w h hw
    unfold resolveHangupReason
    rw [h]
    dsimp only
    simp [hw]
  · intro args r h hr
    unfold resolveHangupReason
    rw [h]
    simp [hr]
  · intro parse s cid aStr hc
    unfold handleFunctionCall handleHangupIntent sendFunctionCallResult
    simp [truthy, hc]

/-- Witness for `hangup_reason_resolution` at concrete argument bundles. -/
theorem hangup_reason_resolution_witness :
    ((fun _ => (none : Option (List (String × JsonValue)))) "x" = none ∧
      decodeFunctionArgs (fun _ => none) (some "x") = []) ∧
      (lookupJson [("reason", JsonValue.num 3)] "reason" = some (JsonValue.num 3) ∧
        resolveHangupReason [("reason", JsonValue.num 3)] = hangupFallbackReason) ∧
      (lookupJson [("reason", JsonValue.str "   ")] "reason" = some (JsonValue.str "   ") ∧
        resolveHangupReason [("reason", JsonValue.str "   ")] = hangupFallbackReason) ∧
      (lookupJson [("reason", JsonValue.str " patient said goodbye ")] "reason" =
          some (JsonValue.str " patient said goodbye ") ∧
        resolveHangupReason [("reason", JsonValue.str " patient said goodbye ")] =
          jsTrim " patient said goodbye ") := by
  refine ⟨⟨rfl, hangup_reason_resolution.2.2.1 (fun _ => none) "x" rfl⟩, ⟨rfl, ?_⟩,
    ⟨rfl, ?_⟩, ⟨rfl, ?_⟩⟩
  · exact hangup_reason_resolution.2.2.2.2.2.1 [("reason", JsonValue.num 3)]
      (JsonValue.num 3) rfl (fun t h => JsonValue.noConfusion h)
  · exact hangup_reason_resolution.2.2.2.2.2.2.1 [("reason", JsonValue.str "   ")]
      "   " rfl (by decide)
  · exact hangup_reason_resolution.2.2.2.2.2.2.2.1
      [("reason", JsonValue.str " patient said goodbye ")]
      " patient said goodbye " rfl (by decide)

/-- Erasing the held handle from its own singleton account empties it. -/
theorem eraseOptHandle_varHandles (o : Option Nat) :
    eraseOptHandle (varHandles o) o = [] := by
  cases o <;> simp [eraseOptHandle, varHandles]

/-- Erasing the held timer from its own singleton account empties it. -/
theorem eraseOptTimer_timerHandles (o : Option HangupTimer) :
    eraseOptTimer (timerHandles o) o = [] := by
  cases o <;> simp [eraseOptTimer, timerHandles]

/-- Model of `stop()` preserves the resource invariant: it releases exactly the
handles the variables held. -/
theorem stop_inv (s : SessionState) (h : Inv s) : Inv (stop s).1 := by
  obtain ⟨h1, h2, h3, h4, h5, h6⟩ := h
  rw [stop_fields]
  refine ⟨?_, ?_, ?_, ?_, ?_, fun _ _ => ⟨rfl, rfl⟩⟩
  · rw [h1, eraseOptHandle_varHandles]
    rfl
  · rw [h2, eraseOptHandle_varHandles]
    rfl
  · rw [h3, eraseOptHandle_varHandles]
    rfl
  · rw [h4, eraseOptHandle_varHandles]
    rfl
  · rw [h5, eraseOptTimer_timerHandles]
    rfl

/-- The resource invariant only looks at resource fields, so updates of
status, error, chat, streaming, argument and microphone bookkeeping keep
it. -/
theorem inv_invariant_fields (s t : SessionState)
    (hrt : t.liveRealtimeSockets = s.liveRealtimeSockets)
    (hres : t.liveResultSockets = s.liveResultSockets)
    (hpe : t.livePeerConnections = s.livePeerConnections)
    (hcap : t.liveCaptures = s.liveCaptures)
    (htm : t.liveTimers = s.liveTimers)
    (hsv : t.socketVar = s.socketVar)
    (hrv : t.resultSocketVar = s.resultSocketVar)
    (hpv : t.peerVar = s.peerVar)
    (hcv : t.captureVar = s.captureVar)
    (hht : t.hangupTimeout = s.hangupTimeout)
    (hic : t.isConnecting = s.isConnecting)
    (hia : t.isActive = s.isActive)
    (h : Inv s) : Inv t := by
  obtain ⟨h1, h2, h3, h4, h5, h6⟩ := h
  exact ⟨by rw [hrt, hsv, h1], by rw [hres, hrv, h2], by rw [hpe, hpv, h3],
    by rw [hcap, hcv, h4], by rw [htm, hht, h5],
    fun hc ha => by
      rw [hsv, hrv]
      exact h6 (hic ▸ hc) (hia ▸ ha)⟩

/-- Model of `scheduleAutomaticHangup` preserves the resource invariant. -/
theorem scheduleAutomaticHangup_inv (r : String) (s : SessionState) (h : Inv s) :
    Inv (scheduleAutomaticHangup r s) := by
  obtain ⟨h1, h2, h3, h4, h5, h6⟩ := h
  unfold scheduleAutomaticHangup clearHangupTimeout
  cases ht : s.hangupTimeout with
  | none =>
      exact ⟨h1, h2, h3, h4, by rw [h5, ht], fun hc ha => h6 hc ha⟩
  | some t =>
      refine ⟨h1, h2, h3, h4, ?_, fun hc ha => h6 hc ha⟩
      simp [h5, ht, timerHandles]

/-- Model of `finalizeScheduledHangup` preserves the resource invariant. -/
theorem finalizeScheduledHangup_inv (s : SessionState) (h : Inv s) :
    Inv (finalizeScheduledHangup s) := by
  obtain ⟨h1, h2, h3, h4, h5, h6⟩ := h
  unfold finalizeScheduledHangup clearHangupTimeout
  cases hp : s.pendingHangupReason with
  | none => exact ⟨h1, h2, h3, h4, h5, h6⟩
  | some r =>
      by_cases hr : r = ""
      · simp only [hr, if_pos rfl]
        exact ⟨h1, h2, h3, h4, h5, h6⟩
      · simp only [hr, if_false]
        cases ht : s.hangupTimeout with
        | none =>
            refine ⟨h1, h2, h3, h4, ?_, fun hc ha => h6 hc ha⟩
            simp [h5, ht, timerHandles]
        | some t =>
            refine ⟨h1, h2, h3, h4, ?_, fun hc ha => h6 hc ha⟩
            simp [h5, ht, timerHandles]

/-- Model of `handleFunctionCall` preserves the resource invariant. -/
theorem handleFunctionCall_inv (parse : String → Option (List (String × JsonValue)))
    (socketOpen : Bool) (s : SessionState) (name : Option String)
    (callId : Option String) (aStr : Option String) (h : Inv s) :
    Inv (handleFunctionCall parse socketOpen s name callId aStr).1 := by
  unfold handleFunctionCall handleHangupIntent
  split_ifs <;>
    first
      | exact h
      | exact scheduleAutomaticHangup_inv _ _ h

/-- The dispatcher preserves the resource invariant. -/
theorem handleRealtimeEvent_inv (cfg : NavtalkConfig)
    (parse : String → Option (List (String × JsonValue)))
    (s : SessionState) (e : RealtimeEvent) (h : Inv s) :
    Inv (handleRealtimeEvent cfg parse s e).1 := by
  cases e with
  | sessionCreated => exact h
  | sessionUpdated =>
      show Inv (startRecording { s with statusMessage := "Ready" })
      unfold startRecording
      split_ifs <;>
        exact inv_invariant_fields _ _ rfl rfl rfl rfl rfl rfl rfl rfl rfl rfl rfl rfl h
  | speechStarted =>
      exact inv_invariant_fields _ _ rfl rfl rfl rfl rfl rfl rfl rfl rfl rfl rfl rfl h
  | speechStopped =>
      exact inv_invariant_fields _ _ rfl rfl rfl rfl rfl rfl rfl rfl rfl rfl rfl rfl h
  | inputTranscriptCompleted t =>
      dsimp only [handleRealtimeEvent]
      split_ifs <;>
        exact inv_invariant_fields _ _ rfl rfl rfl rfl rfl rfl rfl rfl rfl rfl rfl rfl h
  | transcriptDelta rid delta =>
      dsimp only [handleRealtimeEvent]
      cases rid <;> cases delta <;> dsimp only <;>
        first
          | exact h
          | (split_ifs <;>
              exact inv_invariant_fields _ _ rfl rfl rfl rfl rfl rfl rfl rfl rfl rfl rfl rfl h)
  | transcriptDone rid t =>
      dsimp only [handleRealtimeEvent]
      cases rid <;> dsimp only <;>
        first
          | exact h
          | (split_ifs <;>
              exact inv_invariant_fields _ _ rfl rfl rfl rfl rfl rfl rfl rfl rfl rfl rfl rfl h)
  | audioDone =>
      show Inv (finalizeScheduledHangup { s with statusMessage := "Listening" })
      exact finalizeScheduledHangup_inv _
        (inv_invariant_fields _ _ rfl rfl rfl rfl rfl rfl rfl rfl rfl rfl rfl rfl h)
  | functionCallArgsDelta cid delta =>
      dsimp only [handleRealtimeEvent]
      cases cid <;> cases delta <;> dsimp only <;>
        first
          | exact h
          | (split_ifs <;>
              exact inv_invariant_fields _ _ rfl rfl rfl rfl rfl rfl rfl rfl rfl rfl rfl rfl h)
  | functionCallArgsDone name cid aP =>
      dsimp only [handleRealtimeEvent]
      cases cid with
      | none => exact handleFunctionCall_inv _ _ _ _ _ _ h
      | some c =>
          by_cases hc : c = "" <;>
            simp only [hc, if_pos rfl, if_false, if_true] <;>
            exact handleFunctionCall_inv _ _ _ _ _ _
              (inv_invariant_fields _ _ rfl rfl rfl rfl rfl rfl rfl rfl rfl rfl rfl rfl h)
  | responseDone =>
      exact inv_invariant_fields _ _ rfl rfl rfl rfl rfl rfl rfl rfl rfl rfl rfl rfl h
  | gpuFull =>
      exact inv_invariant_fields _ _ rfl rfl rfl rfl rfl rfl rfl rfl rfl rfl rfl rfl h
  | insufficientBalance =>
      exact inv_invariant_fields _ _ rfl rfl rfl rfl rfl rfl rfl rfl rfl rfl rfl rfl h
  | errorEvent => exact h
  | unhandled t => exact h

/-- Every event except the capture-grant completion preserves the resource
invariant. -/
theorem step_inv (license : String)
    (parse : String → Option (List (String × JsonValue)))
    (cfg : NavtalkConfig) (e : Event) (s : SessionState)
    (he : e.isMicGrant = false) (h : Inv s) :
    Inv (step license parse cfg e s) := by
  cases e with
  | startReq =>
      show Inv (startStep license s)
      unfold startStep
      split_ifs with hguard hlic
      · exact h
      · exact inv_invariant_fields _ _ rfl rfl rfl rfl rfl rfl rfl rfl rfl rfl rfl rfl h
      · obtain ⟨h1, h2, h3, h4, h5, h6⟩ := h
        have hflags : s.isConnecting = false ∧ s.isActive = false := by
          constructor <;> [cases hc : s.isConnecting; cases hc : s.isActive] <;>
            simp_all
        obtain ⟨hsock, _⟩ := h6 hflags.1 hflags.2
        refine ⟨?_, h2, h3, h4, h5, fun hc _ => by simp at hc⟩
        rw [h1, hsock]
        rfl
  | stopReq => exact stop_inv s h
  | rtOpenOk id =>
      show Inv (rtOpenOkStep id s)
      unfold rtOpenOkStep openResultSocketStart finishStart
      split_ifs with hguard
      · obtain ⟨hsock, hphase⟩ := hguard
        obtain ⟨h1, h2, h3, h4, h5, h6⟩ := h
        cases hres : s.resultSocketVar with
        | some r =>
            refine ⟨?_, ?_, ?_, ?_, ?_, ?_⟩ <;>
              simp [hres, h1, h2, h3, h4, h5]
        | none =>
            refine ⟨by simp [hres, h1], by simp [hres, h2, varHandles],
              by simp [hres, h3], by simp [hres, h4], by simp [hres, h5], ?_⟩
            intro hc ha
            have hx := (h6 hc ha).1
            rw [hx] at hsock
            exact Option.noConfusion hsock
      · exact h
  | rtOpenErr id =>
      show Inv (rtOpenErrStep id s)
      unfold rtOpenErrStep startFailed
      split_ifs with hguard
      · exact inv_invariant_fields _ _ rfl rfl rfl rfl rfl rfl rfl rfl rfl rfl rfl rfl
          (stop_inv _
            (inv_invariant_fields _ _ rfl rfl rfl rfl rfl rfl rfl rfl rfl rfl rfl rfl h))
      · exact h
  | rtClosed id =>
      show Inv (rtClosedStep id s)
      unfold rtClosedStep
      dsimp only
      split_ifs with hguard hact
      · exact stop_inv _
          (inv_invariant_fields _ _ rfl rfl rfl rfl rfl rfl rfl rfl rfl rfl rfl rfl h)
      · exact stop_inv _ h
      · exact h
  | resOpenOk id =>
      show Inv (resOpenOkStep id s)
      unfold resOpenOkStep finishStart
      split_ifs with hguard
      · obtain ⟨h1, h2, h3, h4, h5, h6⟩ := h
        exact ⟨h1, h2, h3, h4, h5, fun _ ha => by simp at ha⟩
      · exact h
  | resOpenErr id =>
      show Inv (resOpenErrStep id s)
      unfold resOpenErrStep startFailed
      split_ifs with hguard
      · exact inv_invariant_fields _ _ rfl rfl rfl rfl rfl rfl rfl rfl rfl rfl rfl rfl
          (stop_inv _
            (inv_invariant_fields _ _ rfl rfl rfl rfl rfl rfl rfl rfl rfl rfl rfl rfl h))
      · exact h
  | timerFire id =>
      show Inv (fireHangupTimer id s)
      unfold fireHangupTimer triggerAutomaticHangup
      split_ifs with hguard hact
      · apply stop_inv
        obtain ⟨h1, h2, h3, h4, h5, h6⟩ := h
        cases ht : s.hangupTimeout with
        | none => rw [ht] at hguard; simp at hguard
        | some t =>
            rw [ht] at hguard
            simp only [Option.map_some'] at hguard
            refine ⟨h1, h2, h3, h4, ?_, fun hc ha => h6 hc ha⟩
            rw [h5, ht]
            cases hguard
            simp [timerHandles]
      · obtain ⟨h1, h2, h3, h4, h5, h6⟩ := h
        cases ht : s.hangupTimeout with
        | none => rw [ht] at hguard; simp at hguard
        | some t =>
            rw [ht] at hguard
            simp only [Option.map_some'] at hguard
            refine ⟨h1, h2, h3, h4, ?_, fun hc ha => h6 hc ha⟩
            rw [h5, ht]
            cases hguard
            simp [timerHandles]
      · exact h
  | rtMessage re =>
      show Inv (if s.socketVar ≠ none then (handleRealtimeEvent cfg parse s re).1 else s)
      split_ifs with hs
      · exact handleRealtimeEvent_inv cfg parse s re h
      · exact h
  | resOffer =>
      show Inv (resOfferStep s)
      unfold resOfferStep cleanupPeerConnection
      split_ifs with hguard
      · obtain ⟨h1, h2, h3, h4, h5, h6⟩ := h
        cases hp : s.peerVar with
        | none =>
            simp only [hp]
            refine ⟨h1, h2, ?_, h4, h5, fun hc ha => h6 hc ha⟩
            rw [h3, hp]
            rfl
        | some p =>
            simp only [hp]
            refine ⟨h1, h2, ?_, h4, h5, fun hc ha => h6 hc ha⟩
            rw [h3, hp]
            simp [varHandles]
      · exact h
  | resIceCandidate => exact h
  | micGranted => simp [Event.isMicGrant] at he
  | micDenied =>
      show Inv (micDeniedStep s)
      unfold micDeniedStep
      split_ifs <;>
        first
          | exact h
          | exact inv_invariant_fields _ _ rfl rfl rfl rfl rfl rfl rfl rfl rfl rfl rfl rfl h
  | enableMic =>
      show Inv (enableMicrophone s)
      unfold enableMicrophone startRecording
      dsimp only
      split_ifs <;>
        first
          | exact h
          | exact inv_invariant_fields _ _ rfl rfl rfl rfl rfl rfl rfl rfl rfl rfl rfl rfl h
  | disableMic =>
      show Inv (disableMicrophone s)
      unfold disableMicrophone cleanupAudio
      split_ifs with hmic
      · exact h
      · obtain ⟨h1, h2, h3, h4, h5, h6⟩ := h
        cases hcv : s.captureVar with
        | none =>
            simp only [hcv]
            exact ⟨h1, h2, h3, by rw [h4, hcv], h5, fun hc ha => h6 hc ha⟩
        | some c =>
            simp only [hcv]
            refine ⟨h1, h2, h3, ?_, h5, fun hc ha => h6 hc ha⟩
            rw [h4, hcv]
            simp [varHandles]

/-- The invariant holds initially. -/
theorem inv_initialState (chat : List ConversationMessage) : Inv (initialState chat) :=
  ⟨rfl, rfl, rfl, rfl, rfl, fun _ _ => ⟨rfl, rfl⟩⟩

/-- The invariant is preserved along any event sequence that contains no
capture-grant completion. -/
theorem runEvents_inv (license : String)
    (parse : String → Option (List (String × JsonValue)))
    (cfg : NavtalkConfig) (evs : List Event) :
    ∀ s : SessionState, Inv s → (∀ e ∈ evs, e.isMicGrant = false) →
      Inv (runEvents license parse cfg evs s) := by
  induction evs with
  | nil => exact fun s h _ => h
  | cons e rest ih =>
      intro s h hall
      exact ih (step license parse cfg e s)
        (step_inv license parse cfg e s (hall e (List.mem_cons_self _ _)) h)
        (fun x hx => hall x (List.mem_cons_of_mem _ hx))

/-- The invariant bounds every live-handle account by one. -/
theorem inv_resourceBounds (s : SessionState) (h : Inv s) : ResourceBounds s := by
  obtain ⟨h1, h2, h3, h4, h5, _⟩ := h
  refine ⟨?_, ?_, ?_, ?_, ?_⟩
  · rw [h1]; cases s.socketVar <;> simp [varHandles]
  · rw [h2]; cases s.resultSocketVar <;> simp [varHandles]
  · rw [h3]; cases s.peerVar <;> simp [varHandles]
  · rw [h4]; cases s.captureVar <;> simp [varHandles]
  · rw [h5]; cases s.hangupTimeout <;> simp [timerHandles]

/-- C1: along every event sequence made of `start()`/`stop()` requests,
timer firings, socket callbacks and inbound messages (every event except a
capture-grant completion, which is outside the claim's interleavings), the
controller holds at most one live handle of each resource kind; moreover
`start()` is a strict no-op while connecting or active, `startRecording` is
a strict no-op while an audio context exists, and `openResultSocket`
resolves immediately without a second socket when a result socket exists. -/
theorem resource_uniqueness :
    (∀ (license : String) (parse : String → Option (List (String × JsonValue)))
        (cfg : NavtalkConfig) (chat : List ConversationMessage) (evs : List Event),
        (∀ e ∈ evs, e.isMicGrant = false) →
        ResourceBounds (runEvents license parse cfg evs (initialState chat))) ∧
      (∀ (license : String) (s : SessionState),
        s.isConnecting = true ∨ s.isActive = true → startStep license s = s) ∧
      (∀ s : SessionState, s.captureVar ≠ none → startRecording s = s) ∧
      (∀ s : SessionState, s.resultSocketVar ≠ none →
        openResultSocketStart s = (s, true)) := by
  refine ⟨?_, ?_, ?_, ?_⟩
  · intro license parse cfg chat evs hall
    exact inv_resourceBounds _
      (runEvents_inv license parse cfg evs (initialState chat) (inv_initialState chat) hall)
  · intro license s h
    unfold startStep
    rcases h with h | h <;> simp [h]
  · intro s h
    unfold startRecording
    cases hm : s.micEnabled <;> simp [hm, h]
  · intro s h
    unfold openResultSocketStart
    cases hr : s.resultSocketVar with
    | none => exact absurd hr h
    | some r => rfl

/-- Witness for `resource_uniqueness`: a full start, open, offer, hangup and
stop cycle; a connecting state for the `start()` guard; states holding a
capture unit and a result socket for the other two guards. -/
theorem resource_uniqueness_witness :
    ((∀ e ∈ ([Event.startReq, Event.rtOpenOk 0, Event.resOpenOk 1, Event.resOffer,
          Event.rtMessage RealtimeEvent.sessionUpdated,
          Event.rtMessage (RealtimeEvent.functionCallArgsDone
            (some endConversationName) (some "call-1") none),
          Event.rtMessage RealtimeEvent.audioDone,
          Event.timerFire 3, Event.stopReq] : List Event), e.isMicGrant = false) ∧
        ResourceBounds (runEvents "lic" (fun _ => none) demoConfig
          [Event.startReq, Event.rtOpenOk 0, Event.resOpenOk 1, Event.resOffer,
            Event.rtMessage RealtimeEvent.sessionUpdated,
            Event.rtMessage (RealtimeEvent.functionCallArgsDone
              (some endConversationName) (some "call-1") none),
            Event.rtMessage RealtimeEvent.audioDone,
            Event.timerFire 3, Event.stopReq] (initialState []))) ∧
      ({ initialState [] with isConnecting := true } : SessionState).isConnecting = true ∧
      startStep "lic" { initialState [] with isConnecting := true } =
        { initialState [] with isConnecting := true } ∧
      startRecording { initialState [] with captureVar := some 0, liveCaptures := [0] } =
        { initialState [] with captureVar := some 0, liveCaptures := [0] } ∧
      openResultSocketStart
          { initialState [] with resultSocketVar := some 0, liveResultSockets := [0] } =
        ({ initialState [] with resultSocketVar := some 0, liveResultSockets := [0] }, true) := by
  refine ⟨⟨by decide, ?_⟩, rfl, ?_, ?_, ?_⟩
  · exact resource_uniqueness.1 "lic" (fun _ => none) demoConfig [] _ (by decide)
  · exact resource_uniqueness.2.1 "lic" _ (Or.inl rfl)
  · exact resource_uniqueness.2.2.1 _ (by decide)
  · exact resource_uniqueness.2.2.2 _ (by decide)

end ClinicApp
